import Mathlib

/-!
Shallow embedding of the ProductStapler data pipeline
(src/data/etl.py, src/data/brand_ex.py, src/data/product_ex.py)
and proofs about its transform, load, discovery and fan-out stages.

Raw upstream JSON payloads are given the shapes the code reads from them
(etl.py lines 236-374, the test fixtures in src/data/tests/etl_test.py):
each `.get(key)` access of an optional key becomes an `Option` field,
each required `[key]` access becomes a plain field.
-/

/-- A JSON object holding a `code` key, as read by `_general_get(item, "code", "brand")`
and `_general_get(item, "code", "category")` (etl.py lines 262-270, 295-296). -/
structure CodeObj where
  code : Option String
deriving DecidableEq

/-- A color entry; `_get_colors` reads the required key `dic["title"]` (etl.py line 241). -/
structure ColorEntry where
  title : String
deriving DecidableEq

/-- The `rating` object; `_general_get(item, "rate"/"count", "rating")` (etl.py lines 299-300). -/
structure RatingObj where
  rate : Option Int
  count : Option Int
deriving DecidableEq

/-- The `price` object inside `default_variant` (etl.py lines 301-303). -/
structure PriceObj where
  selling_price : Option Int
deriving DecidableEq

/-- The `default_variant` object (etl.py lines 301-303). -/
structure DefaultVariant where
  price : Option PriceObj
deriving DecidableEq

/-- An image entry with a `url` array; `_get_images` reads `x.get("url")[0]`
(etl.py lines 250, 257); well-shaped payloads carry a non-empty `url` array. -/
structure ImageEntry where
  url : List String
deriving DecidableEq

/-- The `images` object of a raw product: a `main` image and a `list` of images
(etl.py lines 243-260). -/
structure ImagesObj where
  main : Option ImageEntry
  list : Option (List ImageEntry)
deriving DecidableEq

/-- Specification groups: group name to attribute name to value array
(the shape enforced by the products jsonSchema, etl.py lines 143-158). -/
abbrev Specs := List (String × List (String × List String))

/-- A raw product record, with exactly the keys `transform_products` reads
(etl.py lines 274-310). -/
structure RawProduct where
  id : Option String
  title_fa : Option String
  title_en : Option String
  brand : Option CodeObj
  category : Option CodeObj
  colors : Option (List ColorEntry)
  specifications : Option Specs
  rating : Option RatingObj
  default_variant : Option DefaultVariant
  product_badges : Option (List String)
  suggestion : Option (List Int)
  comments_count : Option Int
  questions_count : Option Int
  comments_overview : Option (List (String × String))
  images : Option ImagesObj
deriving DecidableEq

/-- The normalized product document built by `transform_products`
(the `document` dict, etl.py lines 292-310); the `_id` lives in the op filter. -/
structure ProductDocument where
  title_fa : Option String
  title_en : Option String
  brand : Option String
  category : Option String
  colors : List String
  specifications : Specs
  rate : Option Int
  count_raters : Option Int
  price : Option Int
  popularity : Nat
  suggestions : List Int
  num_comments : Int
  num_questions : Int
  comments_overview : List (String × String)
  images : List String
deriving DecidableEq

/-- One `UpdateOne({"_id": doc_id}, {"$set": document}, upsert=True)` operation
(etl.py line 311). -/
structure UpsertOp where
  doc_id : String
  set_doc : ProductDocument
deriving DecidableEq

/-- `_get_colors` (etl.py lines 237-241): `[]` for a missing value, else the
`title` of each entry. -/
def getColors : Option (List ColorEntry) → List String
  | none => []
  | some item => item.map (fun dic => dic.title)

/-- `_get_images` for products (etl.py lines 243-260): first element of the main
image url array, then the first element of each url array in the image list. -/
def getImages : Option ImagesObj → List String
  | none => []
  | some item =>
    (match item.main with
     | none => []
     | some main => [main.url.headI]) ++
    (match item.list with
     | none => []
     | some ims => ims.map (fun im => im.url.headI))

/-- The required-field check of `transform_products` (etl.py lines 279-285):
all of id, title_en, brand, category and specifications must be non-null. -/
def requiredPresent (item : RawProduct) : Bool :=
  item.id.isSome && item.title_en.isSome && item.brand.isSome &&
  item.category.isSome && item.specifications.isSome

/-- The `document` dict of `transform_products` (etl.py lines 292-310). -/
def mkProductDocument (item : RawProduct) : ProductDocument :=
  { title_fa := item.title_fa
    title_en := item.title_en
    brand := item.brand.bind (fun v => v.code)
    category := item.category.bind (fun v => v.code)
    colors := getColors item.colors
    specifications := item.specifications.getD []
    rate := item.rating.bind (fun v => v.rate)
    count_raters := item.rating.bind (fun v => v.count)
    price := (item.default_variant.bind (fun v => v.price)).bind
      (fun v => v.selling_price)
    popularity := (item.product_badges.getD []).length
    suggestions := item.suggestion.getD []
    num_comments := item.comments_count.getD 0
    num_questions := item.questions_count.getD 0
    comments_overview := item.comments_overview.getD []
    images := getImages item.images }

/-- The `UpdateOne` appended for a record passing the required-field check
(etl.py line 311). -/
def mkUpsertOp (item : RawProduct) : UpsertOp :=
  { doc_id := item.id.getD "", set_doc := mkProductDocument item }

/-- `transform_products` (etl.py lines 236-312): the per-record loop appending an
op for each record passing the required-field check and skipping the rest,
written as structural recursion over the chunk (output order is input order). -/
def transform_products : List RawProduct → List UpsertOp
  | [] => []
  | item :: rest =>
    if requiredPresent item then mkUpsertOp item :: transform_products rest
    else transform_products rest

/-- A JSON object with a `title` key, as read for `color` and `seller`
(etl.py lines 362-367). -/
structure Named where
  title : Option String
deriving DecidableEq

/-- The `purchased_item` object of a raw comment (etl.py lines 362-367). -/
structure PurchasedItem where
  color : Option Named
  seller : Option Named
deriving DecidableEq

/-- The `reactions` object of a raw comment (etl.py lines 368-369). -/
structure Reactions where
  likes : Option Int
  dislikes : Option Int
deriving DecidableEq

/-- A raw comment record, with exactly the keys `transform_comments` reads
(etl.py lines 344-371). -/
structure RawComment where
  product_id : Option String
  title : Option String
  body : Option String
  rate : Option Int
  advantages : Option String
  disadvantages : Option String
  is_buyer : Option Bool
  created_at : Option String
  purchased_item : Option PurchasedItem
  reactions : Option Reactions
  files : Option (List ImageEntry)
deriving DecidableEq

/-- The normalized comment document built by `transform_comments`
(the `comment_doc` dict, etl.py lines 352-371). -/
structure CommentDoc where
  product_id : String
  title : Option String
  body : Option String
  rate : Option Int
  advantages : Option String
  disadvantages : Option String
  is_buyer : Option Bool
  created_at : Option String
  color : Option String
  seller : Option String
  likes : Option Int
  dislikes : Option Int
  images : List String
deriving DecidableEq

/-- `_get_images` for comments (etl.py lines 332-339): the first element of each
entry's url array, or `[]` when `files` is absent. -/
def getCommentImages : Option (List ImageEntry) → List String
  | none => []
  | some item => item.map (fun im => im.url.headI)

/-- Python truthiness of `item.get("product_id")` (etl.py line 346,
`if not product_id`): a missing value and the empty string are both falsy. -/
def truthyId : Option String → Option String
  | none => none
  | some s => if s = "" then none else some s

/-- The `comment_doc` dict of `transform_comments` (etl.py lines 352-371);
nested lookups via `_general_get_comment` become `Option.bind` chains. -/
def mkCommentDoc (product_id : String) (item : RawComment) : CommentDoc :=
  { product_id := product_id
    title := item.title
    body := item.body
    rate := item.rate
    advantages := item.advantages
    disadvantages := item.disadvantages
    is_buyer := item.is_buyer
    created_at := item.created_at
    color := (item.purchased_item.bind (fun v => v.color)).bind (fun v => v.title)
    seller := (item.purchased_item.bind (fun v => v.seller)).bind (fun v => v.title)
    likes := item.reactions.bind (fun v => v.likes)
    dislikes := item.reactions.bind (fun v => v.dislikes)
    images := getCommentImages item.files }

/-- `transform_comments` (etl.py lines 315-374): records with a falsy
`product_id` are skipped; each remaining record appends one document and adds
its id to the `product_ids` set. Written as structural recursion (document
order is input order; the id set is order-insensitive). -/
def transform_comments : List RawComment → List CommentDoc × Finset String
  | [] => ([], ∅)
  | item :: rest =>
    match truthyId item.product_id with
    | none => transform_comments rest
    | some pid =>
      let r := transform_comments rest
      (mkCommentDoc pid item :: r.1, insert pid r.2)

/-! ## Load stage (etl.py lines 442-476)

The product collection is a list of stored documents keyed by `_id`; the
comment collection is a list of comment documents. Store-side write rejection
(e.g. the jsonSchema validators of `setup_database_schemas`) is modelled by a
predicate `accepts` on operations. -/

/-- A document persisted in the products collection: its `_id` and the fields
written by the `$set`. -/
structure StoredProduct where
  doc_id : String
  doc : ProductDocument
deriving DecidableEq

/-- One `UpdateOne({"_id": ...}, {"$set": ...}, upsert=True)` applied to the
store: replace-by-set on every document matching the id, insert when no match. -/
def applyUpsertOp (store : List StoredProduct) (op : UpsertOp) : List StoredProduct :=
  if store.any (fun d => d.doc_id == op.doc_id) then
    store.map (fun d => if d.doc_id = op.doc_id then { d with doc := op.set_doc } else d)
  else
    store ++ [{ doc_id := op.doc_id, doc := op.set_doc }]

/-- The outcome of one unordered `bulk_write`: the resulting store, the
`upserted_count` and `modified_count` of the `BulkWriteResult`, and whether
any operation failed (in which case pymongo raises `BulkWriteError` after
attempting every operation). -/
structure BulkOutcome where
  store : List StoredProduct
  upserted_count : Nat
  modified_count : Nat
  had_error : Bool
deriving DecidableEq

/-- One operation of an unordered bulk write: a rejected operation records the
error and leaves the store unchanged; an accepted operation upserts (counted in
`upserted_count` on insert, in `modified_count` when a matched document actually
changes, matching pymongo counts). -/
def bulkStep (accepts : UpsertOp → Bool) (acc : BulkOutcome) (op : UpsertOp) : BulkOutcome :=
  if accepts op then
    let st := applyUpsertOp acc.store op
    if acc.store.any (fun d => d.doc_id == op.doc_id) then
      { store := st
        upserted_count := acc.upserted_count
        modified_count := acc.modified_count + (if st = acc.store then 0 else 1)
        had_error := acc.had_error }
    else
      { store := st
        upserted_count := acc.upserted_count + 1
        modified_count := acc.modified_count
        had_error := acc.had_error }
  else
    { acc with had_error := true }

/-- `collection.bulk_write(operations, ordered=False)` (etl.py line 447):
every operation is attempted; failures do not abort the remainder. -/
def bulkWriteUnordered (accepts : UpsertOp → Bool) (store : List StoredProduct)
    (operations : List UpsertOp) : BulkOutcome :=
  operations.foldl (bulkStep accepts) { store := store, upserted_count := 0, modified_count := 0, had_error := false }

/-- `load_products` (etl.py lines 442-455): on success it returns
`upserted_count + modified_count`; when the bulk write raised (any operation
failed) the except block logs and returns 0. The store keeps the documents the
unordered write already applied. -/
def load_products (accepts : UpsertOp → Bool) (store : List StoredProduct)
    (operations : List UpsertOp) : List StoredProduct × Nat :=
  let result := bulkWriteUnordered accepts store operations
  if result.had_error then (result.store, 0)
  else (result.store, result.upserted_count + result.modified_count)

/-- `load_comments` (etl.py lines 458-476) on the success path: nothing happens
for an empty document list; otherwise `delete_many` removes every stored
comment whose `product_id` is in the chunk's id list, then `insert_many`
appends the chunk's documents, and the count of inserted ids is returned. -/
def load_comments (store : List CommentDoc)
    (transformed_data : List CommentDoc × Finset String) : List CommentDoc × Nat :=
  let documents := transformed_data.1
  let product_ids := transformed_data.2
  if documents.isEmpty then (store, 0)
  else
    let afterDelete := store.filter (fun d => decide (d.product_id ∉ product_ids))
    (afterDelete ++ documents, documents.length)

/-! ## Discovery (brand_ex.py lines 96-125, 200-281)

The probe `get_total_pages_of_each_brand` is modelled on its three outcomes.
Note the connect-error branch: the except block's log message interpolates
`req.status_code` while `req` was never assigned, so evaluating the f-string
raises `UnboundLocalError` and the `return 0` below it is never reached. -/

/-- Outcome of the probe request of one brand. -/
inductive ProbeOutcome
  | connectError
  | decodeError
  | pages (total_pages : Nat)
deriving DecidableEq

/-- The exception escaping `get_total_pages_of_each_brand` when its
connect-error handler evaluates `req.status_code` with `req` unbound. -/
inductive PyExc
  | unboundLocal
deriving DecidableEq

/-- `Extractor.get_total_pages_of_each_brand` (brand_ex.py lines 96-125):
a decode error is logged and 0 returned; a connect error makes the handler
itself raise (f-string reads the unbound `req`), so the call raises. -/
def get_total_pages_of_each_brand : ProbeOutcome → Except PyExc Nat
  | ProbeOutcome.connectError => Except.error PyExc.unboundLocal
  | ProbeOutcome.decodeError => Except.ok 0
  | ProbeOutcome.pages n => Except.ok n

/-- Result of one completed `fetch_page` task: `some ids` on success, `none`
when the fetch or decode failed (the handler returns `set()`, brand_ex.py
lines 160-176). -/
def pagePayload : Option (Finset Nat) → Finset Nat
  | none => ∅
  | some s => s

/-- The aggregation loop of `Extractor.get_product_ids_of_each_brand`
(brand_ex.py lines 191-198): `product_ids.update(task.result())` over the
completed page tasks, in whatever order the `done` set yields them. -/
def get_product_ids_of_each_brand (pageResults : List (Option (Finset Nat))) : Finset Nat :=
  pageResults.foldl (fun acc r => acc ∪ pagePayload r) ∅

/-- The value a `get_all_ids_of_brand` task resolves to (brand_ex.py lines
223-257): a `(brand_id, ids)` tuple, or the `dict()` returned by its error
handler. -/
inductive BrandTaskValue
  | pair (brand_id : Nat) (ids : Finset Nat)
  | emptyDict
deriving DecidableEq

/-- `get_all_ids_of_brand` (brand_ex.py lines 223-257): probe the page count;
zero pages (including the decode-error path) yields `(brand_id, set())`; a
raising probe (the connect-error path) is caught and `dict()` returned. -/
def get_all_ids_of_brand (brand_id : Nat) (probe : ProbeOutcome)
    (pageResults : List (Option (Finset Nat))) : BrandTaskValue :=
  match get_total_pages_of_each_brand probe with
  | Except.error _ => BrandTaskValue.emptyDict
  | Except.ok total_pages =>
    if total_pages ≠ 0 then
      BrandTaskValue.pair brand_id (get_product_ids_of_each_brand pageResults)
    else
      BrandTaskValue.pair brand_id ∅

/-- The collection loop of `get_all_ids_by_brand` (brand_ex.py lines 270-281):
`c, ids = task.result()` appends an entry per brand task; unpacking the
`dict()` of a failed task raises ValueError, which is caught and the brand
skipped. Each brand is given by its id, its probe outcome and its completed
page results. -/
def get_all_ids_by_brand
    (brands : List (Nat × ProbeOutcome × List (Option (Finset Nat)))) :
    List (Nat × Finset Nat) :=
  brands.foldl (fun all_product_ids b =>
    match get_all_ids_of_brand b.1 b.2.1 b.2.2 with
    | BrandTaskValue.pair c ids => all_product_ids ++ [(c, ids)]
    | BrandTaskValue.emptyDict => all_product_ids) []

/-! ## Semaphore discipline of the fetch fan-out

`fetch_page` (brand_ex.py lines 140-176) and `ProductExtractor.fetch_product`
(product_ex.py lines 90-123) both wrap the HTTP request in
`async with semaphore` where the semaphore of the instance holds `C` permits
(default 5). Each task acquires a permit before its request goes out and
releases it when the request finishes; the interleaving of `K` such tasks is
the following transition system. -/

/-- Scheduler state of one fan-out: free semaphore permits, tasks not yet past
`async with semaphore`, tasks whose fetch is in flight, finished tasks. -/
structure SemState where
  sem : Nat
  waiting : Nat
  inflight : Nat
  finished : Nat
deriving DecidableEq

/-- One scheduler step: a waiting task acquires a permit and starts its fetch,
or an in-flight task finishes and releases its permit. -/
inductive SemStep : SemState → SemState → Prop
  | acquire (s w i d : Nat) :
      SemStep { sem := s + 1, waiting := w + 1, inflight := i, finished := d }
        { sem := s, waiting := w, inflight := i + 1, finished := d }
  | release (s w i d : Nat) :
      SemStep { sem := s, waiting := w, inflight := i + 1, finished := d }
        { sem := s + 1, waiting := w, inflight := i, finished := d + 1 }

/-- States reachable from the start of a fan-out of `K` work units under a
semaphore of `C` permits. -/
inductive SemReachable (C K : Nat) : SemState → Prop
  | init : SemReachable C K { sem := C, waiting := K, inflight := 0, finished := 0 }
  | step {s t : SemState} : SemReachable C K s → SemStep s t → SemReachable C K t

/-! ## Concrete sample inputs (shaped like the fixtures of
src/data/tests/etl_test.py) used by witnesses and counterexamples. -/

/-- A minimal raw product with the given id and title_en and every other
required field present. -/
def mkRawProduct (i : String) (t : Option String) : RawProduct :=
  { id := some i
    title_fa := none
    title_en := t
    brand := some { code := some "bcode" }
    category := some { code := some "ccode" }
    colors := none
    specifications := some []
    rating := none
    default_variant := none
    product_badges := none
    suggestion := none
    comments_count := none
    questions_count := none
    comments_overview := none
    images := none }

/-- A minimal raw comment with the given product_id and body. -/
def mkRawComment (pid : Option String) (b : Option String) : RawComment :=
  { product_id := pid
    title := none
    body := b
    rate := none
    advantages := none
    disadvantages := none
    is_buyer := none
    created_at := none
    purchased_item := none
    reactions := none
    files := none }

/-- A pre-existing stored comment for the given product id. -/
def storedComment (pid : String) : CommentDoc :=
  mkCommentDoc pid (mkRawComment (some pid) (some "old body"))

/-- A store-side validator rejecting the operation whose id is "bad"
(standing for a jsonSchema rejection inside an unordered bulk write). -/
def rejectBad : UpsertOp → Bool :=
  fun op => op.doc_id != "bad"

/-- The six-record scenario: products p1..p6, where p4 lacks title_en,
split into three chunks of two. -/
def sixProductChunks : List (List RawProduct) :=
  [[mkRawProduct "p1" (some "t1"), mkRawProduct "p2" (some "t2")],
   [mkRawProduct "p3" (some "t3"), mkRawProduct "p4" none],
   [mkRawProduct "p5" (some "t5"), mkRawProduct "p6" (some "t6")]]

/-- The four-comment chunk over products p1 and p2 of the comment-load
scenario. -/
def fourCommentChunk : List RawComment :=
  [mkRawComment (some "p1") (some "c1"), mkRawComment (some "p1") (some "c2"),
   mkRawComment (some "p2") (some "c3"), mkRawComment (some "p2") (some "c4")]

/-- A comment store holding pre-existing comments for p1, p2 and p3. -/
def preStore : List CommentDoc :=
  [storedComment "p1", storedComment "p2", storedComment "p3", storedComment "p1"]

/-- A two-op product chunk whose second op the store rejects. -/
def twoOps : List UpsertOp :=
  [mkUpsertOp (mkRawProduct "p1" (some "t1")), mkUpsertOp (mkRawProduct "bad" (some "t2"))]

/-! ## Helper lemmas about the transforms -/

/-- The per-record loop of transform_products distributes over concatenation of
chunks. -/
theorem transform_products_append (a b : List RawProduct) :
    transform_products (a ++ b) = transform_products a ++ transform_products b := by
  induction a with
  | nil => rfl
  | cons item rest ih =>
    simp only [List.cons_append, transform_products, ih]
    split <;> simp [ih]

/-- transform_products emits exactly one op per record passing the
required-field check. -/
theorem transform_products_length (l : List RawProduct) :
    (transform_products l).length = l.countP requiredPresent := by
  induction l with
  | nil => rfl
  | cons item rest ih =>
    simp only [transform_products, List.countP_cons]
    split <;> rename_i h <;> simp [ih, h]

/-- The documents component of transform_comments distributes over
concatenation of chunks. -/
theorem transform_comments_docs_append (a b : List RawComment) :
    (transform_comments (a ++ b)).1 = (transform_comments a).1 ++ (transform_comments b).1 := by
  induction a with
  | nil => rfl
  | cons item rest ih =>
    simp only [List.cons_append, transform_comments]
    cases truthyId item.product_id <;> simp [ih]

/-- A truthy product id is never the empty string. -/
theorem truthyId_ne_empty {o : Option String} {pid : String}
    (h : truthyId o = some pid) : pid ≠ "" := by
  cases o with
  | none => exact absurd h (by simp [truthyId])
  | some s =>
    by_cases hs : s = "" <;> simp [truthyId, hs] at h
    exact h ▸ hs

/-- The product_ids set returned by transform_comments is exactly the set of
distinct product_id values of the returned documents. -/
theorem transform_comments_pids_eq (chunk : List RawComment) :
    (transform_comments chunk).2
      = ((transform_comments chunk).1.map (fun d => d.product_id)).toFinset := by
  induction chunk with
  | nil => rfl
  | cons item rest ih =>
    simp only [transform_comments]
    cases h : truthyId item.product_id with
    | none => exact ih
    | some pid => simp [mkCommentDoc, ih]

/-- Every document returned by transform_comments carries a non-empty
product_id. -/
theorem transform_comments_pid_ne_empty (chunk : List RawComment) :
    ∀ d ∈ (transform_comments chunk).1, d.product_id ≠ "" := by
  induction chunk with
  | nil => simp [transform_comments]
  | cons item rest ih =>
    simp only [transform_comments]
    cases h : truthyId item.product_id with
    | none => exact ih
    | some pid =>
      intro d hd
      rcases List.mem_cons.mp hd with hd | hd
      · rw [hd]; exact truthyId_ne_empty h
      · exact ih d hd

/-- transform_comments returns no documents exactly when it returns no
product ids. -/
theorem transform_comments_empty_iff (chunk : List RawComment) :
    (transform_comments chunk).1 = [] ↔ (transform_comments chunk).2 = ∅ := by
  induction chunk with
  | nil => simp [transform_comments]
  | cons item rest ih =>
    simp only [transform_comments]
    cases h : truthyId item.product_id with
    | none => exact ih
    | some pid => simp [Finset.insert_ne_empty]

/-- transform_products over the concatenation of chunks equals the
concatenation of the per-chunk transforms. -/
theorem transform_products_join (chunks : List (List RawProduct)) :
    (chunks.map transform_products).flatten = transform_products chunks.flatten := by
  induction chunks with
  | nil => rfl
  | cons c cs ih => simp [transform_products_append, ih]

/-- C3: a raw product record yields an UpsertOp if and only if all five
required fields id, title_en, brand, category, specifications are non-null;
a record missing any of them is dropped (the transform is total, so nothing
is raised) and the ops of the other records of the chunk are unchanged by
its presence. -/
theorem transform_products_required_iff
    (l1 : List RawProduct) (r : RawProduct) (l2 : List RawProduct) :
    transform_products (l1 ++ r :: l2)
      = transform_products l1
        ++ (if r.id ≠ none ∧ r.title_en ≠ none ∧ r.brand ≠ none ∧
              r.category ≠ none ∧ r.specifications ≠ none
            then [mkUpsertOp r] else [])
        ++ transform_products l2 := by
  rw [transform_products_append]
  have hiff : requiredPresent r = true ↔
      (r.id ≠ none ∧ r.title_en ≠ none ∧ r.brand ≠ none ∧
        r.category ≠ none ∧ r.specifications ≠ none) := by
    simp [requiredPresent, Option.isSome_iff_ne_none, and_assoc]
  by_cases h : requiredPresent r = true
  · rw [if_pos (hiff.mp h)]
    simp [transform_products, h]
  · rw [if_neg (fun hp => h (hiff.mpr hp))]
    simp [transform_products, h]

/-- C7: chunking is transparent to the product transform — for every partition
of a record list into consecutive chunks of bounded size, the concatenation of
the per-chunk transforms equals the transform of the whole list, and the total
op count is the number of records passing the required-field check. -/
theorem transform_products_chunking (chunkSize : Nat) (l : List RawProduct)
    (chunks : List (List RawProduct)) (hjoin : chunks.flatten = l)
    (_hsize : ∀ c ∈ chunks, c.length ≤ chunkSize) :
    (chunks.map transform_products).flatten = transform_products l
    ∧ (transform_products l).length = l.countP requiredPresent := by
  subst hjoin
  exact ⟨transform_products_join chunks, transform_products_length _⟩

/-- Witness for C7: six products in three chunks of two, p4 lacking title_en,
yield 2+1+2 = 5 ops. -/
theorem transform_products_chunking_witness :
    (sixProductChunks.flatten = sixProductChunks.flatten
      ∧ ∀ c ∈ sixProductChunks, c.length ≤ 2)
    ∧ ((sixProductChunks.map transform_products).flatten
          = transform_products sixProductChunks.flatten
        ∧ (transform_products sixProductChunks.flatten).length
          = sixProductChunks.flatten.countP requiredPresent)
    ∧ sixProductChunks.map (fun c => (transform_products c).length) = [2, 1, 2]
    ∧ (transform_products sixProductChunks.flatten).length = 5 :=
  ⟨⟨rfl, by decide⟩,
    transform_products_chunking 2 sixProductChunks.flatten sixProductChunks rfl (by decide),
    by decide, by decide⟩

/-- Counterexample to C1: a raw comment whose body is missing but whose
product_id is present is not dropped by transform_comments — it yields one
document, where the claim requires zero. -/
theorem transform_comments_keeps_record_missing_body :
    (mkRawComment (some "p1") none).body = none
    ∧ ((transform_comments [mkRawComment (some "p1") none]).1).length = 1 :=
  ⟨rfl, by decide⟩

/-- C1 (amended): transform_comments drops exactly the records whose
product_id is falsy (missing or empty); every record with a truthy product_id
yields exactly one document, whether or not body is present, and sibling
records are unaffected (the transform is total, so nothing is raised). -/
theorem transform_comments_per_record
    (l1 : List RawComment) (r : RawComment) (l2 : List RawComment) :
    (transform_comments (l1 ++ r :: l2)).1
      = (transform_comments l1).1
        ++ (match truthyId r.product_id with
            | none => []
            | some pid => [mkCommentDoc pid r])
        ++ (transform_comments l2).1 := by
  rw [transform_comments_docs_append]
  simp only [transform_comments]
  cases truthyId r.product_id <;> simp

/-- C10: transform_comments returns a pair whose id set is exactly the set of
distinct product_id values of the returned documents, every returned document
carries a non-empty product_id, and the documents are empty iff the id set is
empty. -/
theorem transform_comments_invariant (chunk : List RawComment) :
    (transform_comments chunk).2
        = ((transform_comments chunk).1.map (fun d => d.product_id)).toFinset
    ∧ (∀ d ∈ (transform_comments chunk).1, d.product_id ≠ "")
    ∧ ((transform_comments chunk).1 = [] ↔ (transform_comments chunk).2 = ∅) :=
  ⟨transform_comments_pids_eq chunk, transform_comments_pid_ne_empty chunk,
    transform_comments_empty_iff chunk⟩

/-- Witness for C10 at the four-comment chunk. -/
theorem transform_comments_invariant_witness :
    (transform_comments fourCommentChunk).2
        = ((transform_comments fourCommentChunk).1.map (fun d => d.product_id)).toFinset
    ∧ (∀ d ∈ (transform_comments fourCommentChunk).1, d.product_id ≠ "")
    ∧ ((transform_comments fourCommentChunk).1 = []
        ↔ (transform_comments fourCommentChunk).2 = ∅) :=
  transform_comments_invariant fourCommentChunk

/-- C4: for a non-empty transformed comment chunk, load_comments deletes every
stored comment whose product_id is in the chunk's id set and then inserts the
chunk's documents; afterwards the number of stored comments for those ids
equals the number of documents in the chunk, whatever the prior store held. -/
theorem load_comments_delete_then_insert (store : List CommentDoc)
    (chunk : List RawComment) (h : (transform_comments chunk).1 ≠ []) :
    (load_comments store (transform_comments chunk)).1
        = store.filter (fun d => decide (d.product_id ∉ (transform_comments chunk).2))
          ++ (transform_comments chunk).1
    ∧ ((load_comments store (transform_comments chunk)).1.countP
          (fun d => decide (d.product_id ∈ (transform_comments chunk).2)))
        = (transform_comments chunk).1.length := by
  have hne : (transform_comments chunk).1.isEmpty = false := by simpa using h
  have hstore : (load_comments store (transform_comments chunk)).1
      = store.filter (fun d => decide (d.product_id ∉ (transform_comments chunk).2))
        ++ (transform_comments chunk).1 := by
    simp [load_comments, hne]
  refine ⟨hstore, ?_⟩
  rw [hstore, List.countP_append]
  have h0 : (store.filter
        (fun d => decide (d.product_id ∉ (transform_comments chunk).2))).countP
        (fun d => decide (d.product_id ∈ (transform_comments chunk).2)) = 0 := by
    rw [List.countP_eq_zero]
    intro a ha
    have hnotin := (List.mem_filter.mp ha).2
    simp only [decide_eq_true_eq] at hnotin ⊢
    exact hnotin
  have h1 : ((transform_comments chunk).1.countP
        (fun d => decide (d.product_id ∈ (transform_comments chunk).2)))
      = (transform_comments chunk).1.length := by
    rw [List.countP_eq_length]
    intro d hd
    simp only [decide_eq_true_eq]
    rw [transform_comments_pids_eq]
    exact List.mem_toFinset.mpr (List.mem_map.mpr ⟨d, hd, rfl⟩)
  omega

/-- Witness for C4: four new comments for p1 and p2 against a store already
holding comments for p1, p2 and p3; the post-load count for p1+p2 is exactly 4. -/
theorem load_comments_delete_then_insert_witness :
    ((transform_comments fourCommentChunk).1 ≠ [])
    ∧ ((load_comments preStore (transform_comments fourCommentChunk)).1
          = preStore.filter
              (fun d => decide (d.product_id ∉ (transform_comments fourCommentChunk).2))
            ++ (transform_comments fourCommentChunk).1
       ∧ ((load_comments preStore (transform_comments fourCommentChunk)).1.countP
            (fun d => decide (d.product_id ∈ (transform_comments fourCommentChunk).2)))
          = (transform_comments fourCommentChunk).1.length)
    ∧ (transform_comments fourCommentChunk).1.length = 4 :=
  ⟨by decide, load_comments_delete_then_insert preStore fourCommentChunk (by decide),
    by decide⟩

/-- An upsert applied to a store with a matching id maps the replace-by-set
over the store. -/
theorem applyUpsertOp_match {store : List StoredProduct} {op : UpsertOp}
    (h : store.any (fun d => d.doc_id == op.doc_id) = true) :
    applyUpsertOp store op
      = store.map (fun d => if d.doc_id = op.doc_id then { d with doc := op.set_doc } else d) := by
  unfold applyUpsertOp
  rw [if_pos h]

/-- An upsert applied to a store with no matching id appends the new document. -/
theorem applyUpsertOp_nomatch {store : List StoredProduct} {op : UpsertOp}
    (h : store.any (fun d => d.doc_id == op.doc_id) = false) :
    applyUpsertOp store op = store ++ [{ doc_id := op.doc_id, doc := op.set_doc }] := by
  unfold applyUpsertOp
  rw [if_neg (by simp [h])]

/-- C8: product upsert is idempotent — applying the same UpsertOp twice to any
store leaves the store exactly as applying it once. -/
theorem upsert_idempotent (store : List StoredProduct) (op : UpsertOp) :
    applyUpsertOp (applyUpsertOp store op) op = applyUpsertOp store op := by
  by_cases h : store.any (fun d => d.doc_id == op.doc_id) = true
  · have hkeep : ∀ d : StoredProduct,
        (if d.doc_id = op.doc_id then { d with doc := op.set_doc } else d).doc_id
          = d.doc_id := by
      intro d; split <;> rfl
    have h2 : ((store.map (fun d =>
          if d.doc_id = op.doc_id then { d with doc := op.set_doc } else d)).any
        (fun d => d.doc_id == op.doc_id)) = true := by
      rcases List.any_eq_true.mp h with ⟨d, hd, hp⟩
      exact List.any_eq_true.mpr
        ⟨_, List.mem_map.mpr ⟨d, hd, rfl⟩, by rw [hkeep d]; exact hp⟩
    rw [applyUpsertOp_match h, applyUpsertOp_match h2, List.map_map]
    apply List.map_congr_left
    intro d _
    by_cases hd : d.doc_id = op.doc_id
    · simp [Function.comp, hd]
    · simp [Function.comp, hd]
  · have hfalse : store.any (fun d => d.doc_id == op.doc_id) = false := by
      simpa using h
    have hall : ∀ d ∈ store, ¬d.doc_id = op.doc_id := by
      intro d hd
      simpa using List.any_eq_false.mp hfalse d hd
    have h2 : ((store ++ [({ doc_id := op.doc_id, doc := op.set_doc } : StoredProduct)]).any
        (fun d => d.doc_id == op.doc_id)) = true := by
      simp
    rw [applyUpsertOp_nomatch hfalse, applyUpsertOp_match h2, List.map_append]
    have hstore : store.map (fun d =>
        if d.doc_id = op.doc_id then { d with doc := op.set_doc } else d) = store := by
      have hid : ∀ d ∈ store,
          (if d.doc_id = op.doc_id then { d with doc := op.set_doc } else d) = id d := by
        intro d hd; rw [if_neg (hall d hd)]; rfl
      rw [List.map_congr_left hid, List.map_id]
    rw [hstore]
    simp

/-- One unordered bulk-write step records an error exactly when the operation
is rejected, and keeps any earlier error. -/
theorem bulkStep_had_error (accepts : UpsertOp → Bool) (acc : BulkOutcome) (op : UpsertOp) :
    (bulkStep accepts acc op).had_error = (acc.had_error || !accepts op) := by
  cases hacc : accepts op with
  | true =>
    simp only [bulkStep, hacc, Bool.not_true, Bool.or_false, if_true]
    split <;> rfl
  | false => simp [bulkStep, hacc]

/-- The unordered bulk write reports an error exactly when some operation of
the chunk is rejected. -/
theorem bulkFold_had_error (accepts : UpsertOp → Bool) (ops : List UpsertOp) :
    ∀ acc : BulkOutcome,
      (ops.foldl (bulkStep accepts) acc).had_error
        = (acc.had_error || ops.any (fun op => !accepts op)) := by
  induction ops with
  | nil => intro acc; simp
  | cons op t ih =>
    intro acc
    rw [List.foldl_cons, ih, bulkStep_had_error, List.any_cons, Bool.or_assoc]

/-- One unordered bulk-write step applies an accepted operation to the store
and skips a rejected one. -/
theorem bulkStep_store (accepts : UpsertOp → Bool) (acc : BulkOutcome) (op : UpsertOp) :
    (bulkStep accepts acc op).store
      = if accepts op then applyUpsertOp acc.store op else acc.store := by
  cases hacc : accepts op with
  | true =>
    simp only [bulkStep, hacc, if_true]
    split <;> rfl
  | false => simp [bulkStep, hacc]

/-- The store resulting from an unordered bulk write is the fold applying the
accepted operations in order, rejected operations skipped. -/
theorem bulkFold_store (accepts : UpsertOp → Bool) (ops : List UpsertOp) :
    ∀ acc : BulkOutcome,
      (ops.foldl (bulkStep accepts) acc).store
        = ops.foldl (fun st op => if accepts op then applyUpsertOp st op else st) acc.store := by
  induction ops with
  | nil => intro acc; rfl
  | cons op t ih =>
    intro acc
    rw [List.foldl_cons, List.foldl_cons, ih, bulkStep_store]

/-- Counterexample to C2: in a two-op chunk whose second op the store rejects,
the first op succeeds and is persisted, yet load_products returns 0, not the
partial count 1. -/
theorem load_products_returns_zero_not_partial :
    (load_products rejectBad [] twoOps).2 = 0
    ∧ (load_products rejectBad [] twoOps).1
      = [{ doc_id := "p1", doc := mkProductDocument (mkRawProduct "p1" (some "t1")) }] :=
  ⟨by decide, by decide⟩

/-- C2 (amended): when any operation of the chunk fails, load_products returns
0 — the except branch swallows the partial count — while the unordered bulk
write still applies every accepted operation (no abort of the remainder). -/
theorem load_products_zero_on_any_failure (accepts : UpsertOp → Bool)
    (store : List StoredProduct) (ops : List UpsertOp)
    (h : ∃ op ∈ ops, accepts op = false) :
    (load_products accepts store ops).2 = 0
    ∧ (load_products accepts store ops).1
      = ops.foldl (fun st op => if accepts op then applyUpsertOp st op else st) store := by
  have herr : (bulkWriteUnordered accepts store ops).had_error = true := by
    rw [bulkWriteUnordered, bulkFold_had_error]
    rcases h with ⟨op, hmem, hop⟩
    simp only [Bool.false_or]
    exact List.any_eq_true.mpr ⟨op, hmem, by simp [hop]⟩
  refine ⟨?_, ?_⟩
  · simp [load_products, herr]
  · simp only [load_products, herr, if_true]
    rw [bulkWriteUnordered, bulkFold_store]

/-- Witness for the amended C2 at the two-op chunk with one rejected op. -/
theorem load_products_zero_on_any_failure_witness :
    (∃ op ∈ twoOps, rejectBad op = false)
    ∧ ((load_products rejectBad [] twoOps).2 = 0
       ∧ (load_products rejectBad [] twoOps).1
          = twoOps.foldl (fun st op => if rejectBad op then applyUpsertOp st op else st) []) :=
  ⟨by decide, load_products_zero_on_any_failure rejectBad [] twoOps (by decide)⟩

/-- Membership in the running fan-out aggregate: an id is collected exactly
when it was already in the accumulator or some successful page carries it. -/
theorem mem_fanout_aggregate (l : List (Option (Finset Nat))) (acc : Finset Nat) (x : Nat) :
    x ∈ l.foldl (fun a r => a ∪ pagePayload r) acc
      ↔ x ∈ acc ∨ ∃ s, some s ∈ l ∧ x ∈ s := by
  induction l generalizing acc with
  | nil => simp
  | cons r t ih =>
    rw [List.foldl_cons, ih]
    cases r with
    | none => simp [pagePayload]
    | some s => simp [pagePayload, Finset.mem_union, or_assoc]

/-- C6: the fan-out aggregate is the union of the successful page results and
is invariant under the completion order of the page tasks (failed pages
contribute the empty set). -/
theorem fanout_aggregate_union (l l' : List (Option (Finset Nat))) (h : l.Perm l') :
    get_product_ids_of_each_brand l = get_product_ids_of_each_brand l'
    ∧ ∀ x, x ∈ get_product_ids_of_each_brand l ↔ ∃ s, some s ∈ l ∧ x ∈ s := by
  have hmem : ∀ (m : List (Option (Finset Nat))) (x : Nat),
      x ∈ get_product_ids_of_each_brand m ↔ ∃ s, some s ∈ m ∧ x ∈ s := by
    intro m x
    rw [get_product_ids_of_each_brand, mem_fanout_aggregate]
    simp
  refine ⟨?_, hmem l⟩
  ext x
  rw [hmem l, hmem l']
  exact exists_congr fun s => and_congr_left fun _ => h.mem_iff

/-- Witness for C6: two completion orders of three pages (one failed) give the
same aggregate. -/
theorem fanout_aggregate_union_witness :
    (([some ({1, 2} : Finset Nat), none, some {3}] :
        List (Option (Finset Nat))).Perm [some {3}, some {1, 2}, none])
    ∧ (get_product_ids_of_each_brand [some {1, 2}, none, some {3}]
          = get_product_ids_of_each_brand [some {3}, some {1, 2}, none]
       ∧ ∀ x, x ∈ get_product_ids_of_each_brand [some {1, 2}, none, some {3}]
          ↔ ∃ s, some s ∈ ([some ({1, 2} : Finset Nat), none, some {3}] :
              List (Option (Finset Nat))) ∧ x ∈ s) :=
  ⟨by decide, fanout_aggregate_union _ _ (by decide)⟩

/-- Evaluation for C5: a brand whose probe resolves zero pages, or whose probe
response fails to decode, is recorded as empty; but a brand whose probe request
raises a connect error is omitted from the result mapping entirely, because the
error handler itself raises on the unbound `req` and the collector skips the
brand when unpacking the resulting `dict()` fails. -/
theorem discovery_probe_failure_eval :
    get_all_ids_by_brand [(7, ProbeOutcome.connectError, [])] = []
    ∧ get_all_ids_by_brand
        [(8, ProbeOutcome.pages 0, []), (9, ProbeOutcome.decodeError, [])]
      = [(8, ∅), (9, ∅)] :=
  ⟨rfl, rfl⟩

/-- In every reachable state of a fan-out, free permits plus in-flight fetches
equal the semaphore capacity. -/
theorem semReachable_sem_add_inflight (C K : Nat) :
    ∀ {s : SemState}, SemReachable C K s → s.sem + s.inflight = C := by
  intro s h
  induction h with
  | init => simp
  | step hr hstep ih =>
    cases hstep with
    | acquire s w i d => simp only at ih ⊢; omega
    | release s w i d => simp only at ih ⊢; omega

/-- C9: under a semaphore of C permits, at most C fetches of one extractor
instance are in flight in any reachable state of a K-task fan-out. -/
theorem semaphore_bounds_inflight (C K : Nat) (s : SemState)
    (h : SemReachable C K s) : s.inflight ≤ C := by
  have := semReachable_sem_add_inflight C K h
  omega

/-- Witness for C9: the state after one acquire in a 10-task fan-out under 5
permits is reachable and has one fetch in flight, at most 5. -/
theorem semaphore_bounds_inflight_witness :
    SemReachable 5 10 { sem := 4, waiting := 9, inflight := 1, finished := 0 }
    ∧ ({ sem := 4, waiting := 9, inflight := 1, finished := 0 } : SemState).inflight ≤ 5 :=
  ⟨SemReachable.step SemReachable.init (SemStep.acquire 4 9 0 0),
    semaphore_bounds_inflight 5 10 _
      (SemReachable.step SemReachable.init (SemStep.acquire 4 9 0 0))⟩
